import Mathlib

/-!
Verification of the RoboEyes animation engine (a Python port of the
FluxGarage RoboEyes library) against its natural-language specification.

The repository contains two variants of the engine:
* `src/roboeyes/eyes.py` (class `RoboEyes`), embedded below in namespace
  `Eyes`;
* `src/roboeyes_2.py` (class `RoboEyes`), embedded below in namespace `R2`.

Modelling conventions:
* Python floats are modelled as exact values in a linear ordered field `F`
  (instantiated with `ℚ` for executable witnesses and with `ℝ` where the
  code uses `math.sin`); `math.sin` and `math.pi` enter the definitions as
  parameters `sinF`/`piF`, instantiated with `Real.sin`/`π` in theorems
  about the trigonometric behaviour.
* Wall-clock reads (`time.time()`) and random draws (`random.uniform`,
  `random.choice`) are threaded through as explicit parameters of each
  operation; the frame-pacing sleep in `update()` has no effect on the
  animation state and is not modelled.
* Python strings are modelled as `List Char`; `str.lower`/`str.strip`
  are modelled by `pyLower`/`stripChars` below, which agree with Python
  on ASCII input (all alias names the code compares against are ASCII).
-/

namespace RoboSpec

/-- Eye mood states, from `eyes.py` (`class Mood(IntEnum)`). -/
inductive Mood where
  | DEFAULT
  | TIRED
  | ANGRY
  | HAPPY
deriving DecidableEq

/-- Compass gaze positions, from `eyes.py` (`class Position(IntEnum)`). -/
inductive Position where
  | DEFAULT
  | N
  | NE
  | E
  | SE
  | S
  | SW
  | W
  | NW
deriving DecidableEq

variable {F : Type} [LinearOrderedField F]

/-- `RoboEyes._tween` from `eyes.py`:
`return (current + target) / 2.0` — the "standard" blend. -/
def tween (current target : F) : F :=
  (current + target) / 2

/-- `RoboEyes._tween_fast` from `eyes.py`:
`return current + (target - current) * 0.4` (here `0.4 = 4/10`). -/
def tween_fast (current target : F) : F :=
  current + (target - current) * (4/10)

namespace R2

/-- `RoboEyes._lerp` from `roboeyes_2.py`:
`diff = target - current; if abs(diff) < 0.01: return target;
return current + diff * speed` (here `0.01 = 1/100`). -/
def lerp (current target speed : F) : F :=
  let diff := target - current
  if |diff| < (1/100) then target else current + diff * speed

/-- `k` consecutive `_lerp` steps from `current` toward a fixed `target`
with a fixed `speed`, as performed by consecutive `update()` calls in
`roboeyes_2.py`. -/
def lerpIter (target speed : F) : Nat → F → F
  | 0, current => current
  | k + 1, current => lerpIter target speed k (lerp current target speed)

end R2

/-- Residual error of one `_lerp` step: if no snap fires the error scales
by `1 - speed`; if the snap fires it becomes `0`. -/
theorem lerp_error_step (c t s : F) (h : ((1/100) : F) ≤ |t - c|) :
    t - R2.lerp c t s = (t - c) * (1 - s) := by
  unfold R2.lerp
  rw [if_neg (by simpa using not_lt.mpr h)]
  ring

/-- Error bound for iterated `_lerp` at the engine's standard speed
`0.15`: the distance to a fixed target after `k` steps is at most
`(0.85)^k` times the initial distance (equality while no snap has
fired; `0` afterwards). -/
theorem lerpIter_error_le (t : F) :
    ∀ (k : Nat) (c : F),
      |t - R2.lerpIter t (15/100) k c| ≤ |t - c| * (85/100) ^ k := by
  intro k
  induction k with
  | zero => intro c; simp [R2.lerpIter]
  | succ k ih =>
    intro c
    rw [R2.lerpIter]
    refine (ih (R2.lerp c t (15/100))).trans ?_
    rw [pow_succ]
    have hstep : |t - R2.lerp c t (15/100)| ≤ |t - c| * (85/100) := by
      unfold R2.lerp
      by_cases h : |t - c| < ((1/100) : F)
      · rw [if_pos (by simpa using h), sub_self, abs_zero]
        positivity
      · rw [if_neg (by simpa using h)]
        have : t - (c + (t - c) * (15/100)) = (t - c) * (85/100) := by ring
        rw [this, abs_mul]
        have : |((85/100) : F)| = (85/100) := abs_of_pos (by norm_num)
        rw [this]
    calc |t - R2.lerp c t (15/100)| * (85/100) ^ k
        ≤ (|t - c| * (85/100)) * (85/100) ^ k := by
          apply mul_le_mul_of_nonneg_right hstep (by positivity)
      _ = |t - c| * ((85/100) ^ k * (85/100)) := by ring

/-- Exact geometric decay for iterated `_lerp` while the error stays
above the snap epsilon: if the error before the last step is still at
least `0.01`, no snap has fired and the residual after `k + 1` steps is
exactly `(t - c) · (1 - s)^(k+1)`. -/
theorem lerpIter_exact (t s : F) (hs0 : 0 ≤ s) (hs1 : s ≤ 1) :
    ∀ (k : Nat) (c : F), (1 / 100 : F) ≤ |t - c| * (1 - s) ^ k →
      t - R2.lerpIter t s (k + 1) c = (t - c) * (1 - s) ^ (k + 1) := by
  have h1s : (0 : F) ≤ 1 - s := by linarith
  intro k
  induction k with
  | zero =>
    intro c h
    simp only [pow_zero, mul_one] at h
    rw [R2.lerpIter, R2.lerpIter, lerp_error_step c t s h]
    ring
  | succ k ih =>
    intro c h
    have hck : |t - c| * (1 - s) ^ (k + 1) ≤ |t - c| := by
      calc |t - c| * (1 - s) ^ (k + 1) ≤ |t - c| * 1 := by
            apply mul_le_mul_of_nonneg_left _ (abs_nonneg _)
            exact pow_le_one₀ h1s (by linarith)
        _ = |t - c| := mul_one _
    have hc : (1 / 100 : F) ≤ |t - c| := le_trans h hck
    have hstep : t - R2.lerp c t s = (t - c) * (1 - s) := lerp_error_step c t s hc
    have habs : |t - R2.lerp c t s| = |t - c| * (1 - s) := by
      rw [hstep, abs_mul, abs_of_nonneg h1s]
    have hnext : (1 / 100 : F) ≤ |t - R2.lerp c t s| * (1 - s) ^ k := by
      rw [habs]
      calc (1 / 100 : F) ≤ |t - c| * (1 - s) ^ (k + 1) := h
        _ = |t - c| * (1 - s) * (1 - s) ^ k := by ring
    have := ih (R2.lerp c t s) hnext
    rw [show k + 1 + 1 = (k + 1) + 1 from rfl, R2.lerpIter, this, hstep]
    ring

/-- C1, as stated, fails on the code: the standard blend of `eyes.py`
(`_tween`, used for the gaze offsets) moves halfway to the target, not
`0.15` of the way (`tween 0 1 = 1/2 ≠ 0.15`); and in `roboeyes_2.py`
even the `0.15`-rate `_lerp` leaves a residual of `1000 · (0.85)^28 ≈
10.56 > 10`, i.e. more than 1% of the initial distance 1000, after 28
calls. -/
theorem c1_standard_blend_cex :
    tween (0 : ℚ) 1 ≠ 0 + (1 - 0) * (15/100) ∧
      (1 / 100 : ℚ) * |1000 - 0| < |1000 - R2.lerpIter (1000 : ℚ) (15/100) 28 0| := by
  constructor
  · norm_num [tween]
  · have h := lerpIter_exact (1000 : ℚ) (15/100) (by norm_num) (by norm_num) 27 0
      (by rw [abs_of_nonneg (by norm_num)]; norm_num)
    rw [show (28 : Nat) = 27 + 1 from rfl, h]
    rw [abs_of_nonneg (by norm_num), abs_of_nonneg (by positivity)]
    norm_num

/-- C1 (amended): the standard blend of `eyes.py` (`_tween`) computes
`next = current + (target − current) · (1/2)`; the blend of
`roboeyes_2.py` (`_lerp` at `transition_speed = 0.15`) computes
`next = current + (target − current) · 0.15` whenever
`|target − current| ≥ 0.01` (otherwise it snaps to the target), its
residual error after `k` consecutive `update()` steps is at most
`error₀ · (0.85)^k`, and it is below 1% of the initial distance after
29 consecutive calls (not 28, since `(0.85)^28 > 1/100`). -/
theorem c1_standard_blend (c t s : F) (hct : c ≠ t) :
    tween c t = c + (t - c) * (1 / 2) ∧
      (((1/100) : F) ≤ |t - c| → R2.lerp c t s = c + (t - c) * s) ∧
      (∀ k : Nat, |t - R2.lerpIter t (15/100) k c| ≤ |t - c| * (85/100) ^ k) ∧
      |t - R2.lerpIter t (15/100) 29 c| < 1 / 100 * |t - c| := by
  refine ⟨by unfold tween; ring, ?_, fun k => lerpIter_error_le t k c, ?_⟩
  · intro h
    unfold R2.lerp
    rw [if_neg (by simpa using not_lt.mpr h)]
  · refine (lerpIter_error_le t 29 c).trans_lt ?_
    have h0 : (0 : F) < |t - c| := abs_pos.mpr (sub_ne_zero.mpr (Ne.symm hct))
    have hpow : ((85/100) : F) ^ 29 < 1 / 100 := by norm_num
    calc |t - c| * (85/100) ^ 29 < |t - c| * (1 / 100) := by
          exact mul_lt_mul_of_pos_left hpow h0
      _ = 1 / 100 * |t - c| := by ring

/-- Witness for `c1_standard_blend` at `c = 0`, `t = 1`, `s = 0.15`
over `ℚ`. -/
theorem c1_standard_blend_witness :
    (0 : ℚ) ≠ 1 ∧
      |1 - R2.lerpIter (1 : ℚ) (15/100) 29 0| < 1 / 100 * |1 - 0| :=
  ⟨by norm_num, (c1_standard_blend (0 : ℚ) 1 (15/100) (by norm_num)).2.2.2⟩

/-- C2, as stated, fails on the code: the blends of `eyes.py` have no
snap-to-target epsilon. With `current = 1/1000` and `target = 0` the
distance to the target is below any reasonable epsilon (in particular
below the `0.01` used by `roboeyes_2.py`), yet `_tween` returns
`1/2000`, not the target. -/
theorem c2_idempotent_snap_cex :
    |(1 / 1000 : ℚ) - 0| < (1/100) ∧ tween (1 / 1000 : ℚ) 0 ≠ 0 := by
  constructor
  · rw [sub_zero, abs_of_nonneg (by norm_num)]
    norm_num
  · norm_num [tween]

/-- Once a `_lerp`-tracked value sits exactly at its target it stays
there: the snap branch fires on a zero difference. -/
theorem lerp_fixed (t s : F) : R2.lerp t t s = t := by
  unfold R2.lerp
  rw [if_pos (by rw [sub_self, abs_zero]; norm_num)]

/-- Iterating `_lerp` from the target never moves away from it. -/
theorem lerpIter_fixed (t s : F) : ∀ k : Nat, R2.lerpIter t s k t = t := by
  intro k
  induction k with
  | zero => rfl
  | succ k ih => rw [R2.lerpIter, lerp_fixed]; exact ih

/-- C2 (amended): the snap guarantee holds for `roboeyes_2.py`'s
`_lerp` (with epsilon `0.01`) but not for `eyes.py`'s `_tween`/
`_tween_fast`, which have no epsilon and only converge asymptotically:
once `|current − target| < 0.01`, a `_lerp` step returns exactly the
target, and every further step with the same target leaves the value
exactly at the target. -/
theorem c2_idempotent_snap (c t s : F) (h : |t - c| < (1/100)) :
    R2.lerp c t s = t ∧ ∀ k : Nat, 1 ≤ k → R2.lerpIter t s k c = t := by
  have hsnap : R2.lerp c t s = t := by
    unfold R2.lerp
    rw [if_pos (by simpa using h)]
  refine ⟨hsnap, ?_⟩
  intro k hk
  obtain ⟨k', rfl⟩ := Nat.exists_eq_add_of_le hk
  rw [Nat.add_comm, R2.lerpIter, hsnap, lerpIter_fixed]

/-- Witness for `c2_idempotent_snap` at `c = 1/200`, `t = 0`,
`s = 0.15`, `k = 3` over `ℚ`. -/
theorem c2_idempotent_snap_witness :
    R2.lerp (1 / 200 : ℚ) 0 (15/100) = 0 ∧ R2.lerpIter (0 : ℚ) (15/100) 3 (1 / 200) = 0 :=
  ⟨(c2_idempotent_snap (1 / 200 : ℚ) 0 (15/100)
      (by rw [zero_sub, abs_neg, abs_of_nonneg (by norm_num)]; norm_num)).1,
    (c2_idempotent_snap (1 / 200 : ℚ) 0 (15/100)
      (by rw [zero_sub, abs_neg, abs_of_nonneg (by norm_num)]; norm_num)).2 3 (by norm_num)⟩

/-- Per-eye geometry record of `eyes.py` (`@dataclass EyeGeometry`):
current values, tween targets (`*_next`) and reset defaults
(`*_default`). -/
structure EyeGeometry (F : Type) where
  width : F
  height : F
  border_radius : F
  width_next : F
  height_next : F
  border_radius_next : F
  width_default : F
  height_default : F
  border_radius_default : F

/-- Dataclass defaults of `EyeGeometry` in `eyes.py`: width and height
36, border radius 8, for current, next and default values alike. -/
def EyeGeometry.initial (F : Type) [LinearOrderedField F] : EyeGeometry F :=
  ⟨36, 36, 8, 36, 36, 8, 36, 36, 8⟩

/-- The mutable state of a `RoboEyes` instance from `eyes.py`
(`__init__`, lines 94-172), minus the four `*_timer` fields that the
source assigns once and never reads, with colours kept as opaque RGB
integer triples. `_blink_left`/`_blink_right` (created by the first
`blink()` call in the source; read only while `_is_blinking`) are given
initial values `true` matching `blink()`'s defaults. -/
structure RoboState (F : Type) where
  screen_width : F
  screen_height : F
  bg_color : ℤ × ℤ × ℤ
  eye_color : ℤ × ℤ × ℤ
  frame_rate : F
  frame_interval : F
  last_frame_time : F
  left_eye : EyeGeometry F
  right_eye : EyeGeometry F
  space_between : F
  x : F
  y : F
  x_next : F
  y_next : F
  left_open : F
  right_open : F
  left_open_next : F
  right_open_next : F
  mood : Mood
  tired : Bool
  angry : Bool
  happy : Bool
  cyclops : Bool
  curious : Bool
  h_flicker : Bool
  v_flicker : Bool
  h_flicker_amplitude : F
  v_flicker_amplitude : F
  autoblinker : Bool
  idle : Bool
  confused : Bool
  laugh : Bool
  sweat : Bool
  sweat_pos : F × F × F
  sweat_sizes : F × F × F
  blink_interval : F
  blink_interval_variation : F
  next_blink_time : F
  is_blinking : Bool
  blink_start_time : F
  blink_duration : F
  blink_left : Bool
  blink_right : Bool
  idle_interval : F
  idle_interval_variation : F
  next_idle_time : F
  confused_duration : F
  confused_start_time : F
  laugh_duration : F
  laugh_start_time : F
  max_x : F
  max_y : F

/-- `RoboEyes._update_constraints` from `eyes.py`. -/
def update_constraints (s : RoboState F) : RoboState F :=
  let eye_w := s.left_eye.width + s.right_eye.width + s.space_between
  let eye_h := max s.left_eye.height s.right_eye.height
  { s with max_x := (s.screen_width - eye_w) / 2 - 5,
           max_y := (s.screen_height - eye_h) / 2 - 5 }

/-- `RoboEyes._schedule_next_blink` from `eyes.py`, with the sampled
`random.uniform(-variation, variation)` passed in as `v` and
`time.time()` as `now`. -/
def schedule_next_blink (now v : F) (s : RoboState F) : RoboState F :=
  { s with next_blink_time := now + max (5/10) (s.blink_interval + v) }

/-- `RoboEyes._schedule_next_idle` from `eyes.py`, with the sampled
variation passed in as `v` and `time.time()` as `now`. -/
def schedule_next_idle (now v : F) (s : RoboState F) : RoboState F :=
  { s with next_idle_time := now + max (5/10) (s.idle_interval + v) }

/-- `RoboEyes.__init__` from `eyes.py`, parameterised over the
construction arguments and the wall-clock/random draws of the two
initial scheduling calls. -/
def init (width height frame_rate : F) (bg eye : ℤ × ℤ × ℤ)
    (now rb ri : F) : RoboState F :=
  let s : RoboState F :=
    { screen_width := width, screen_height := height,
      bg_color := bg, eye_color := eye,
      frame_rate := frame_rate, frame_interval := 1 / frame_rate,
      last_frame_time := 0,
      left_eye := EyeGeometry.initial F, right_eye := EyeGeometry.initial F,
      space_between := 10,
      x := 0, y := 0, x_next := 0, y_next := 0,
      left_open := 1, right_open := 1, left_open_next := 1, right_open_next := 1,
      mood := Mood.DEFAULT, tired := false, angry := false, happy := false,
      cyclops := false, curious := false, h_flicker := false, v_flicker := false,
      h_flicker_amplitude := 2, v_flicker_amplitude := 2,
      autoblinker := false, idle := false, confused := false, laugh := false,
      sweat := false, sweat_pos := (0, 0, 0), sweat_sizes := (1, 1, 1),
      blink_interval := 4, blink_interval_variation := 2, next_blink_time := 0,
      is_blinking := false, blink_start_time := 0, blink_duration := 15/100,
      blink_left := true, blink_right := true,
      idle_interval := 3, idle_interval_variation := 2, next_idle_time := 0,
      confused_duration := 5/10, confused_start_time := 0,
      laugh_duration := 5/10, laugh_start_time := 0,
      max_x := 0, max_y := 0 }
  schedule_next_idle now ri (schedule_next_blink now rb (update_constraints s))

/-- `RoboEyes.set_frame_rate` from `eyes.py`. -/
def set_frame_rate (s : RoboState F) (fps : F) : RoboState F :=
  { s with frame_rate := fps, frame_interval := 1 / fps }

/-- `RoboEyes.set_width` from `eyes.py`: sets the tween targets and the
defaults of both eyes, then recomputes the screen constraints (the
Python `right=None` default, meaning `right = left`, is resolved at the
call site). -/
def set_width (s : RoboState F) (left right : F) : RoboState F :=
  update_constraints
    { s with left_eye := { s.left_eye with width_next := left, width_default := left },
             right_eye := { s.right_eye with width_next := right, width_default := right } }

/-- `RoboEyes.set_height` from `eyes.py`. -/
def set_height (s : RoboState F) (left right : F) : RoboState F :=
  update_constraints
    { s with left_eye := { s.left_eye with height_next := left, height_default := left },
             right_eye := { s.right_eye with height_next := right, height_default := right } }

/-- `RoboEyes.set_border_radius` from `eyes.py` (no constraint
recomputation in the source). -/
def set_border_radius (s : RoboState F) (left right : F) : RoboState F :=
  { s with
    left_eye := { s.left_eye with border_radius_next := left, border_radius_default := left },
    right_eye := { s.right_eye with border_radius_next := right, border_radius_default := right } }

/-- `RoboEyes.set_space_between` from `eyes.py`. -/
def set_space_between (s : RoboState F) (space : F) : RoboState F :=
  update_constraints { s with space_between := space }

/-- `RoboEyes.set_colors` from `eyes.py`. -/
def set_colors (s : RoboState F) (bg eye : ℤ × ℤ × ℤ) : RoboState F :=
  { s with bg_color := bg, eye_color := eye }

/-- `RoboEyes.set_mood` from `eyes.py`: stores the mood and derives the
three boolean flags from it. -/
def set_mood (s : RoboState F) (m : Mood) : RoboState F :=
  { s with mood := m,
           tired := decide (m = Mood.TIRED),
           angry := decide (m = Mood.ANGRY),
           happy := decide (m = Mood.HAPPY) }

/-- The target-offset computation of `RoboEyes.set_position` from
`eyes.py` (lines 241-270): the `if`/`elif` chain over the compass
positions, written as a match over the same cases, starting from
`x_offset = y_offset = 0.0` (here `0.8 = 8/10`). -/
def set_position_offsets (mx my : F) (p : Position) : F × F :=
  match p with
  | Position.N => (0, -my * (8/10))
  | Position.NE => (mx * (8/10), -my * (8/10))
  | Position.E => (mx * (8/10), 0)
  | Position.SE => (mx * (8/10), my * (8/10))
  | Position.S => (0, my * (8/10))
  | Position.SW => (-mx * (8/10), my * (8/10))
  | Position.W => (-mx * (8/10), 0)
  | Position.NW => (-mx * (8/10), -my * (8/10))
  | Position.DEFAULT => (0, 0)

/-- `RoboEyes.set_position` from `eyes.py`: stores the computed offsets
as the gaze tween targets. -/
def set_position (s : RoboState F) (p : Position) : RoboState F :=
  let o := set_position_offsets s.max_x s.max_y p
  { s with x_next := o.1, y_next := o.2 }

/-- ASCII lower-casing of one character, the behaviour of Python's
`str.lower` on the ASCII range. -/
def lowerChar (c : Char) : Char :=
  if 'A' ≤ c ∧ c ≤ 'Z' then Char.ofNat (c.toNat + 32) else c

/-- ASCII whitespace test, the behaviour of Python's `str.strip`
default character set on ASCII input. -/
def isSpaceChar (c : Char) : Bool :=
  c = ' ' ∨ c = '\t' ∨ c = '\n' ∨ c = '\r'

/-- Python `str.strip()` on ASCII input: drop leading and trailing
whitespace. -/
def stripChars (l : List Char) : List Char :=
  ((l.dropWhile isSpaceChar).reverse.dropWhile isSpaceChar).reverse

/-- Python `str.lower()` on ASCII input. -/
def pyLower (l : List Char) : List Char :=
  l.map lowerChar

/-- The alias dictionary of `RoboEyes.look` from `eyes.py` (lines
275-286). -/
def look_mapping : List (List Char × Position) :=
  [("center".toList, Position.DEFAULT), ("default".toList, Position.DEFAULT),
   ("n".toList, Position.N), ("north".toList, Position.N), ("up".toList, Position.N),
   ("ne".toList, Position.NE), ("northeast".toList, Position.NE),
   ("e".toList, Position.E), ("east".toList, Position.E), ("right".toList, Position.E),
   ("se".toList, Position.SE), ("southeast".toList, Position.SE),
   ("s".toList, Position.S), ("south".toList, Position.S), ("down".toList, Position.S),
   ("sw".toList, Position.SW), ("southwest".toList, Position.SW),
   ("w".toList, Position.W), ("west".toList, Position.W), ("left".toList, Position.W),
   ("nw".toList, Position.NW), ("northwest".toList, Position.NW)]

/-- The name-resolution step of `RoboEyes.look` from `eyes.py`:
`direction.lower().strip()` then `mapping.get(direction,
Position.DEFAULT)`. -/
def look_resolve (direction : List Char) : Position :=
  (look_mapping.lookup (stripChars (pyLower direction))).getD Position.DEFAULT

/-- `RoboEyes.look` from `eyes.py`: resolve the direction name and
delegate to `set_position`. -/
def look (s : RoboState F) (direction : List Char) : RoboState F :=
  set_position s (look_resolve direction)

/-- `RoboEyes.open` from `eyes.py` (renamed: `open` is a Lean keyword). -/
def open_eyes (s : RoboState F) (left right : Bool) : RoboState F :=
  { s with left_open_next := if left then 1 else s.left_open_next,
           right_open_next := if right then 1 else s.right_open_next }

/-- `RoboEyes.close` from `eyes.py`. -/
def close_eyes (s : RoboState F) (left right : Bool) : RoboState F :=
  { s with left_open_next := if left then 0 else s.left_open_next,
           right_open_next := if right then 0 else s.right_open_next }

/-- `RoboEyes.blink` from `eyes.py`, with `time.time()` passed as
`now`. -/
def blink (s : RoboState F) (left right : Bool) (now : F) : RoboState F :=
  { s with is_blinking := true, blink_start_time := now,
           blink_left := left, blink_right := right }

/-- `RoboEyes.wink_left` from `eyes.py`: `blink(left=True, right=False)`. -/
def wink_left (s : RoboState F) (now : F) : RoboState F :=
  blink s true false now

/-- `RoboEyes.wink_right` from `eyes.py`: `blink(left=False, right=True)`. -/
def wink_right (s : RoboState F) (now : F) : RoboState F :=
  blink s false true now

/-- `RoboEyes.set_cyclops` from `eyes.py`. -/
def set_cyclops (s : RoboState F) (enabled : Bool) : RoboState F :=
  { s with cyclops := enabled }

/-- `RoboEyes.set_curiosity` from `eyes.py`. -/
def set_curiosity (s : RoboState F) (enabled : Bool) : RoboState F :=
  { s with curious := enabled }

/-- `RoboEyes.set_h_flicker` from `eyes.py`. -/
def set_h_flicker (s : RoboState F) (enabled : Bool) (amplitude : F) : RoboState F :=
  { s with h_flicker := enabled, h_flicker_amplitude := amplitude }

/-- `RoboEyes.set_v_flicker` from `eyes.py`. -/
def set_v_flicker (s : RoboState F) (enabled : Bool) (amplitude : F) : RoboState F :=
  { s with v_flicker := enabled, v_flicker_amplitude := amplitude }

/-- `RoboEyes.set_sweat` from `eyes.py` (here `0.8 = 8/10`,
`0.6 = 6/10`). -/
def set_sweat (s : RoboState F) (enabled : Bool) : RoboState F :=
  if enabled then
    { s with sweat := enabled, sweat_pos := (0, 5, 10),
             sweat_sizes := (1, 8/10, 6/10) }
  else { s with sweat := enabled }

/-- `RoboEyes.set_autoblinker` from `eyes.py`, with the sampled
rescheduling variation passed as `rv` and `time.time()` as `now`. -/
def set_autoblinker (s : RoboState F) (enabled : Bool) (interval variation : F)
    (now rv : F) : RoboState F :=
  let s1 := { s with autoblinker := enabled, blink_interval := interval,
                     blink_interval_variation := variation }
  if enabled then schedule_next_blink now rv s1 else s1

/-- `RoboEyes.set_idle_mode` from `eyes.py`. -/
def set_idle_mode (s : RoboState F) (enabled : Bool) (interval variation : F)
    (now rv : F) : RoboState F :=
  let s1 := { s with idle := enabled, idle_interval := interval,
                     idle_interval_variation := variation }
  if enabled then schedule_next_idle now rv s1 else s1

/-- `RoboEyes.anim_confused` from `eyes.py`. -/
def anim_confused (s : RoboState F) (duration now : F) : RoboState F :=
  { s with confused := true, confused_start_time := now,
           confused_duration := duration }

/-- `RoboEyes.anim_laugh` from `eyes.py`. -/
def anim_laugh (s : RoboState F) (duration now : F) : RoboState F :=
  { s with laugh := true, laugh_start_time := now,
           laugh_duration := duration }

/-- `RoboEyes._process_auto_behaviors` from `eyes.py` (lines 415-431):
the nested `if` conditions are flattened into conjunctions (the inner
`if` has no `else` effect). `rb`/`ri` are the sampled rescheduling
variations, `choice` the `random.choice(positions)` draw. -/
def process_auto_behaviors (now rb ri : F) (choice : Position)
    (s : RoboState F) : RoboState F :=
  let s1 :=
    if s.autoblinker = true ∧ s.is_blinking = false ∧ s.next_blink_time ≤ now then
      schedule_next_blink now rb (blink s true true now)
    else s
  if s1.idle = true ∧ s1.confused = false ∧ s1.laugh = false ∧ s1.next_idle_time ≤ now then
    schedule_next_idle now ri (set_position s1 choice)
  else s1

/-- The blink branch of `RoboEyes._process_animations` from `eyes.py`
(lines 437-455): on `t ≥ 1` the blink ends and the open targets of the
blinked eyes are set to `1.0`; otherwise the blinked eyes' openness is
set to the curve `1 - sin(t·π)` (`sinF`/`piF` stand for
`math.sin`/`math.pi`). -/
def process_blink_anim (sinF : F → F) (piF now : F) (s : RoboState F) : RoboState F :=
  if s.is_blinking = true then
    let t := (now - s.blink_start_time) / s.blink_duration
    if 1 ≤ t then
      { s with is_blinking := false,
               left_open_next := if s.blink_left then 1 else s.left_open_next,
               right_open_next := if s.blink_right then 1 else s.right_open_next }
    else
      let blink_curve := 1 - sinF (t * piF)
      { s with left_open := if s.blink_left then blink_curve else s.left_open,
               right_open := if s.blink_right then blink_curve else s.right_open }
  else s

/-- The confused branch of `RoboEyes._process_animations` from
`eyes.py` (lines 458-465). -/
def process_confused_anim (sinF : F → F) (piF now : F) (s : RoboState F) : RoboState F :=
  if s.confused = true then
    let elapsed := now - s.confused_start_time
    if s.confused_duration ≤ elapsed then
      { s with confused := false }
    else
      let t := elapsed / s.confused_duration
      { s with x := s.x_next + sinF (t * piF * 8) * 15 * (1 - t) }
  else s

/-- The laugh branch of `RoboEyes._process_animations` from `eyes.py`
(lines 468-475). -/
def process_laugh_anim (sinF : F → F) (piF now : F) (s : RoboState F) : RoboState F :=
  if s.laugh = true then
    let elapsed := now - s.laugh_start_time
    if s.laugh_duration ≤ elapsed then
      { s with laugh := false }
    else
      let t := elapsed / s.laugh_duration
      { s with y := s.y_next + sinF (t * piF * 10) * 8 * (1 - t) }
  else s

/-- `RoboEyes._process_animations` from `eyes.py`: blink, then
confused, then laugh. -/
def process_animations (sinF : F → F) (piF now : F) (s : RoboState F) : RoboState F :=
  process_laugh_anim sinF piF now
    (process_confused_anim sinF piF now (process_blink_anim sinF piF now s))

/-- `RoboEyes._update_geometry` from `eyes.py` (lines 477-508):
position and openness tweening gated by the animation flags, then the
curiosity-mode height-target update (reading the already-updated `_x`),
then the geometry tweening toward the (possibly updated) targets
(here `0.3 = 3/10`). -/
def update_geometry (s : RoboState F) : RoboState F :=
  let x1 := if s.confused = false then tween s.x s.x_next else s.x
  let y1 := if s.laugh = false then tween s.y s.y_next else s.y
  let lo := if s.is_blinking = false then tween_fast s.left_open s.left_open_next
            else s.left_open
  let ro := if s.is_blinking = false then tween_fast s.right_open s.right_open_next
            else s.right_open
  let look_amount := |x1| / max s.max_x 1 * (3/10)
  let hnext : F × F :=
    if s.curious = true then
      if x1 > 5 then (s.left_eye.height_default * (1 + look_amount), s.right_eye.height_next)
      else if x1 < -5 then (s.left_eye.height_next, s.right_eye.height_default * (1 + look_amount))
      else (s.left_eye.height_default, s.right_eye.height_default)
    else (s.left_eye.height_next, s.right_eye.height_next)
  { s with
    x := x1, y := y1, left_open := lo, right_open := ro,
    left_eye := { s.left_eye with
      width := tween s.left_eye.width s.left_eye.width_next,
      height := tween s.left_eye.height hnext.1,
      border_radius := tween s.left_eye.border_radius s.left_eye.border_radius_next,
      height_next := hnext.1 },
    right_eye := { s.right_eye with
      width := tween s.right_eye.width s.right_eye.width_next,
      height := tween s.right_eye.height hnext.2,
      border_radius := tween s.right_eye.border_radius s.right_eye.border_radius_next,
      height_next := hnext.2 } }

/-- One sweat-drop step of `RoboEyes._update_sweat` from `eyes.py`
(lines 515-521), with the `random.uniform(0, 10)` reset draw passed as
`r` (here `1.5 = 3/2`, `0.5 = 5/10`). -/
def sweat_drop_step (p r : F) : F × F :=
  let p1 := p + 3/2
  let size := 1 - p1 / 50 * (5/10)
  if p1 > 50 then (r, 1) else (p1, size)

/-- `RoboEyes._update_sweat` from `eyes.py`: no-op unless sweat is
enabled; otherwise advance the three drops. -/
def update_sweat (r3 : F × F × F) (s : RoboState F) : RoboState F :=
  if s.sweat = true then
    let d1 := sweat_drop_step s.sweat_pos.1 r3.1
    let d2 := sweat_drop_step s.sweat_pos.2.1 r3.2.1
    let d3 := sweat_drop_step s.sweat_pos.2.2 r3.2.2
    { s with sweat_pos := (d1.1, d2.1, d3.1), sweat_sizes := (d1.2, d2.2, d3.2) }
  else s

/-- The state effect of `RoboEyes.update` from `eyes.py` (lines
628-646): record the frame time (the pacing sleep itself does not
change the animation state), then run auto behaviors, animations,
geometry tweening and the sweat update. The rendering section of
`update` only reads the state. -/
def update_step (sinF : F → F) (piF now rb ri : F) (choice : Position)
    (r3 : F × F × F) (s : RoboState F) : RoboState F :=
  update_sweat r3
    (update_geometry
      (process_animations sinF piF now
        (process_auto_behaviors now rb ri choice { s with last_frame_time := now })))

/-- The public mutating operations of the `eyes.py` engine, one
constructor per API call, carrying the wall-clock reads and random
draws the call consumes. -/
inductive Op (F : Type) where
  | setFrameRate (fps : F)
  | setWidth (left right : F)
  | setHeight (left right : F)
  | setBorderRadius (left right : F)
  | setSpaceBetween (space : F)
  | setColors (bg eye : ℤ × ℤ × ℤ)
  | setMood (m : Mood)
  | setPosition (p : Position)
  | lookDir (direction : List Char)
  | openEyes (left right : Bool)
  | closeEyes (left right : Bool)
  | blinkEyes (left right : Bool) (now : F)
  | winkLeft (now : F)
  | winkRight (now : F)
  | setCyclops (enabled : Bool)
  | setCuriosity (enabled : Bool)
  | setHFlicker (enabled : Bool) (amplitude : F)
  | setVFlicker (enabled : Bool) (amplitude : F)
  | setSweat (enabled : Bool)
  | setAutoblinker (enabled : Bool) (interval variation now rv : F)
  | setIdleMode (enabled : Bool) (interval variation now rv : F)
  | animConfused (duration now : F)
  | animLaugh (duration now : F)
  | update (now rb ri : F) (choice : Position) (r3 : F × F × F)

/-- Interpretation of one operation as a state transformer, mirroring
the corresponding `eyes.py` method. -/
def applyOp (sinF : F → F) (piF : F) : Op F → RoboState F → RoboState F
  | Op.setFrameRate fps, s => set_frame_rate s fps
  | Op.setWidth l r, s => set_width s l r
  | Op.setHeight l r, s => set_height s l r
  | Op.setBorderRadius l r, s => set_border_radius s l r
  | Op.setSpaceBetween sp, s => set_space_between s sp
  | Op.setColors bg eye, s => set_colors s bg eye
  | Op.setMood m, s => set_mood s m
  | Op.setPosition p, s => set_position s p
  | Op.lookDir d, s => look s d
  | Op.openEyes l r, s => open_eyes s l r
  | Op.closeEyes l r, s => close_eyes s l r
  | Op.blinkEyes l r now, s => blink s l r now
  | Op.winkLeft now, s => wink_left s now
  | Op.winkRight now, s => wink_right s now
  | Op.setCyclops b, s => set_cyclops s b
  | Op.setCuriosity b, s => set_curiosity s b
  | Op.setHFlicker b a, s => set_h_flicker s b a
  | Op.setVFlicker b a, s => set_v_flicker s b a
  | Op.setSweat b, s => set_sweat s b
  | Op.setAutoblinker b i v now rv, s => set_autoblinker s b i v now rv
  | Op.setIdleMode b i v now rv, s => set_idle_mode s b i v now rv
  | Op.animConfused d now, s => anim_confused s d now
  | Op.animLaugh d now, s => anim_laugh s d now
  | Op.update now rb ri choice r3, s => update_step sinF piF now rb ri choice r3 s

/-- Run a sequence of operations from a starting state. -/
def runOps (sinF : F → F) (piF : F) (ops : List (Op F)) (s : RoboState F) : RoboState F :=
  ops.foldl (fun st op => applyOp sinF piF op st) s

/-- The effect of one operation on the remembered "most recently
passed mood". -/
def moodStep (m : Mood) (op : Op F) : Mood :=
  match op with
  | Op.setMood m' => m'
  | _ => m

/-- The most recently passed mood of an operation sequence
(`Mood.DEFAULT` if no `setMood` occurs). -/
def lastMoodOf (ops : List (Op F)) : Mood :=
  ops.foldl moodStep Mood.DEFAULT

/-- The mood-related fields of a state, bundled for the preservation
lemmas below. -/
def moodFields (s : RoboState F) : Mood × Bool × Bool × Bool :=
  (s.mood, s.tired, s.angry, s.happy)

@[simp] theorem moodFields_update_constraints (s : RoboState F) :
    moodFields (update_constraints s) = moodFields s := rfl

@[simp] theorem moodFields_schedule_next_blink (now v : F) (s : RoboState F) :
    moodFields (schedule_next_blink now v s) = moodFields s := rfl

@[simp] theorem moodFields_schedule_next_idle (now v : F) (s : RoboState F) :
    moodFields (schedule_next_idle now v s) = moodFields s := rfl

@[simp] theorem moodFields_set_frame_rate (s : RoboState F) (fps : F) :
    moodFields (set_frame_rate s fps) = moodFields s := rfl

@[simp] theorem moodFields_set_width (s : RoboState F) (l r : F) :
    moodFields (set_width s l r) = moodFields s := rfl

@[simp] theorem moodFields_set_height (s : RoboState F) (l r : F) :
    moodFields (set_height s l r) = moodFields s := rfl

@[simp] theorem moodFields_set_border_radius (s : RoboState F) (l r : F) :
    moodFields (set_border_radius s l r) = moodFields s := rfl

@[simp] theorem moodFields_set_space_between (s : RoboState F) (sp : F) :
    moodFields (set_space_between s sp) = moodFields s := rfl

@[simp] theorem moodFields_set_colors (s : RoboState F) (bg eye : ℤ × ℤ × ℤ) :
    moodFields (set_colors s bg eye) = moodFields s := rfl

@[simp] theorem moodFields_set_position (s : RoboState F) (p : Position) :
    moodFields (set_position s p) = moodFields s := rfl

@[simp] theorem moodFields_look (s : RoboState F) (d : List Char) :
    moodFields (look s d) = moodFields s := rfl

@[simp] theorem moodFields_open_eyes (s : RoboState F) (l r : Bool) :
    moodFields (open_eyes s l r) = moodFields s := rfl

@[simp] theorem moodFields_close_eyes (s : RoboState F) (l r : Bool) :
    moodFields (close_eyes s l r) = moodFields s := rfl

@[simp] theorem moodFields_blink (s : RoboState F) (l r : Bool) (now : F) :
    moodFields (blink s l r now) = moodFields s := rfl

@[simp] theorem moodFields_wink_left (s : RoboState F) (now : F) :
    moodFields (wink_left s now) = moodFields s := rfl

@[simp] theorem moodFields_wink_right (s : RoboState F) (now : F) :
    moodFields (wink_right s now) = moodFields s := rfl

@[simp] theorem moodFields_set_cyclops (s : RoboState F) (b : Bool) :
    moodFields (set_cyclops s b) = moodFields s := rfl

@[simp] theorem moodFields_set_curiosity (s : RoboState F) (b : Bool) :
    moodFields (set_curiosity s b) = moodFields s := rfl

@[simp] theorem moodFields_set_h_flicker (s : RoboState F) (b : Bool) (a : F) :
    moodFields (set_h_flicker s b a) = moodFields s := rfl

@[simp] theorem moodFields_set_v_flicker (s : RoboState F) (b : Bool) (a : F) :
    moodFields (set_v_flicker s b a) = moodFields s := rfl

@[simp] theorem moodFields_anim_confused (s : RoboState F) (d now : F) :
    moodFields (anim_confused s d now) = moodFields s := rfl

@[simp] theorem moodFields_anim_laugh (s : RoboState F) (d now : F) :
    moodFields (anim_laugh s d now) = moodFields s := rfl

@[simp] theorem moodFields_update_geometry (s : RoboState F) :
    moodFields (update_geometry s) = moodFields s := rfl

@[simp] theorem moodFields_set_sweat (s : RoboState F) (b : Bool) :
    moodFields (set_sweat s b) = moodFields s := by
  unfold set_sweat
  split <;> rfl

@[simp] theorem moodFields_set_autoblinker (s : RoboState F) (b : Bool)
    (i v now rv : F) : moodFields (set_autoblinker s b i v now rv) = moodFields s := by
  simp only [set_autoblinker]
  split <;> rfl

@[simp] theorem moodFields_set_idle_mode (s : RoboState F) (b : Bool)
    (i v now rv : F) : moodFields (set_idle_mode s b i v now rv) = moodFields s := by
  simp only [set_idle_mode]
  split <;> rfl

@[simp] theorem moodFields_update_sweat (r3 : F × F × F) (s : RoboState F) :
    moodFields (update_sweat r3 s) = moodFields s := by
  simp only [update_sweat]
  split <;> rfl

@[simp] theorem moodFields_process_blink_anim (sinF : F → F) (piF now : F)
    (s : RoboState F) :
    moodFields (process_blink_anim sinF piF now s) = moodFields s := by
  simp only [process_blink_anim]
  split
  · split <;> rfl
  · rfl

@[simp] theorem moodFields_process_confused_anim (sinF : F → F) (piF now : F)
    (s : RoboState F) :
    moodFields (process_confused_anim sinF piF now s) = moodFields s := by
  simp only [process_confused_anim]
  split
  · split <;> rfl
  · rfl

@[simp] theorem moodFields_process_laugh_anim (sinF : F → F) (piF now : F)
    (s : RoboState F) :
    moodFields (process_laugh_anim sinF piF now s) = moodFields s := by
  simp only [process_laugh_anim]
  split
  · split <;> rfl
  · rfl

@[simp] theorem moodFields_process_animations (sinF : F → F) (piF now : F)
    (s : RoboState F) :
    moodFields (process_animations sinF piF now s) = moodFields s := by
  simp [process_animations]

@[simp] theorem moodFields_process_auto_behaviors (now rb ri : F)
    (choice : Position) (s : RoboState F) :
    moodFields (process_auto_behaviors now rb ri choice s) = moodFields s := by
  simp only [process_auto_behaviors]
  split <;> split <;> rfl

@[simp] theorem moodFields_update_step (sinF : F → F) (piF now rb ri : F)
    (choice : Position) (r3 : F × F × F) (s : RoboState F) :
    moodFields (update_step sinF piF now rb ri choice r3 s) = moodFields s := by
  simp only [update_step, moodFields_update_sweat, moodFields_update_geometry,
    moodFields_process_animations, moodFields_process_auto_behaviors]
  rfl

/-- Every operation other than `setMood` leaves the mood field and the
three mood flags untouched. -/
theorem moodFields_applyOp (sinF : F → F) (piF : F) (op : Op F) (s : RoboState F)
    (h : ∀ m, op ≠ Op.setMood m) :
    moodFields (applyOp sinF piF op s) = moodFields s := by
  cases op <;>
    first
      | exact absurd rfl (h _)
      | simp [applyOp]

/-- The mood field after one operation is exactly `moodStep` of the
mood before it. -/
theorem mood_applyOp (sinF : F → F) (piF : F) (op : Op F) (s : RoboState F) :
    (applyOp sinF piF op s).mood = moodStep s.mood op := by
  cases op <;>
    first
      | (exact congrArg Prod.fst
          (moodFields_applyOp sinF piF _ s (fun m hc => Op.noConfusion hc)))
      | rfl

/-- The flag-consistency invariant: each of the three mood flags holds
exactly when the stored mood is the corresponding variant. -/
def MoodInv (s : RoboState F) : Prop :=
  s.tired = decide (s.mood = Mood.TIRED) ∧
    s.angry = decide (s.mood = Mood.ANGRY) ∧
    s.happy = decide (s.mood = Mood.HAPPY)

theorem moodInv_of_fields_eq {s s' : RoboState F}
    (h : moodFields s' = moodFields s) : MoodInv s → MoodInv s' := by
  have h1 : s'.mood = s.mood := congrArg (fun q => q.1) h
  have h2 : s'.tired = s.tired := congrArg (fun q => q.2.1) h
  have h3 : s'.angry = s.angry := congrArg (fun q => q.2.2.1) h
  have h4 : s'.happy = s.happy := congrArg (fun q => q.2.2.2) h
  intro hs
  exact ⟨by rw [h1, h2, hs.1], by rw [h1, h3, hs.2.1], by rw [h1, h4, hs.2.2]⟩

theorem moodInv_applyOp (sinF : F → F) (piF : F) (op : Op F) (s : RoboState F)
    (hinv : MoodInv s) : MoodInv (applyOp sinF piF op s) := by
  by_cases h : ∃ m, op = Op.setMood m
  · obtain ⟨m, rfl⟩ := h
    refine ⟨?_, ?_, ?_⟩ <;> rfl
  · push_neg at h
    exact moodInv_of_fields_eq (moodFields_applyOp sinF piF op s h) hinv

theorem runOps_mood_aux (sinF : F → F) (piF : F) :
    ∀ (ops : List (Op F)) (s : RoboState F), MoodInv s →
      MoodInv (runOps sinF piF ops s) ∧
        (runOps sinF piF ops s).mood = ops.foldl moodStep s.mood := by
  intro ops
  induction ops with
  | nil => exact fun s h => ⟨h, rfl⟩
  | cons op ops ih =>
    intro s h
    have hstep := moodInv_applyOp sinF piF op s h
    have hr := ih (applyOp sinF piF op s) hstep
    refine ⟨hr.1, ?_⟩
    have : (op :: ops).foldl (moodStep (F := F)) s.mood
        = ops.foldl moodStep (applyOp sinF piF op s).mood := by
      rw [List.foldl_cons, mood_applyOp]
    rw [this]
    exact hr.2

theorem moodInv_init (w h fr : F) (bg eye : ℤ × ℤ × ℤ) (now rb ri : F) :
    MoodInv (init w h fr bg eye now rb ri) :=
  ⟨rfl, rfl, rfl⟩

/-- C10: after any sequence of engine operations, the mood flags of
the `eyes.py` state agree with the most recently passed mood (each
flag is set exactly when the stored mood is the matching variant, so
at most one flag is set, and all are clear when the last mood was
`DEFAULT`); moreover every operation other than `set_mood` leaves the
mood and the three flags untouched. -/
theorem c10_single_mood (sinF : F → F) (piF : F) (w h fr : F)
    (bg ec : ℤ × ℤ × ℤ) (n0 rb0 ri0 : F) (ops : List (Op F)) :
    let s := runOps sinF piF ops (init w h fr bg ec n0 rb0 ri0)
    (s.tired = decide (s.mood = Mood.TIRED) ∧
       s.angry = decide (s.mood = Mood.ANGRY) ∧
       s.happy = decide (s.mood = Mood.HAPPY)) ∧
    s.mood = lastMoodOf ops ∧
    (¬(s.tired = true ∧ s.angry = true) ∧
       ¬(s.tired = true ∧ s.happy = true) ∧
       ¬(s.angry = true ∧ s.happy = true)) ∧
    (lastMoodOf ops = Mood.DEFAULT →
       s.tired = false ∧ s.angry = false ∧ s.happy = false) ∧
    (∀ (op : Op F) (st : RoboState F), (∀ m, op ≠ Op.setMood m) →
       (applyOp sinF piF op st).mood = st.mood ∧
         (applyOp sinF piF op st).tired = st.tired ∧
         (applyOp sinF piF op st).angry = st.angry ∧
         (applyOp sinF piF op st).happy = st.happy) := by
  intro s
  have hinit := moodInv_init w h fr bg ec n0 rb0 ri0
  have hmain := runOps_mood_aux sinF piF ops (init w h fr bg ec n0 rb0 ri0) hinit
  have hinv : MoodInv s := hmain.1
  have hmood : s.mood = lastMoodOf ops := hmain.2
  obtain ⟨ht, ha, hh⟩ := hinv
  refine ⟨⟨ht, ha, hh⟩, hmood, ⟨?_, ?_, ?_⟩, ?_, ?_⟩
  · rintro ⟨h1, h2⟩
    rw [ht, ha] at *
    cases hm : s.mood <;> rw [hm] at h1 h2 <;> simp_all
  · rintro ⟨h1, h2⟩
    rw [ht, hh] at *
    cases hm : s.mood <;> rw [hm] at h1 h2 <;> simp_all
  · rintro ⟨h1, h2⟩
    rw [ha, hh] at *
    cases hm : s.mood <;> rw [hm] at h1 h2 <;> simp_all
  · intro hd
    rw [← hmood] at hd
    rw [ht, ha, hh, hd]
    exact ⟨rfl, rfl, rfl⟩
  · intro op st hop
    have hfields := moodFields_applyOp sinF piF op st hop
    exact ⟨congrArg (fun q => q.1) hfields, congrArg (fun q => q.2.1) hfields,
      congrArg (fun q => q.2.2.1) hfields, congrArg (fun q => q.2.2.2) hfields⟩

/-- Witness for `c10_single_mood` over `ℚ`: after
`set_mood(HAPPY)` then an `update()` tick, exactly the happy flag is
set; and a `set_width` call (a non-`setMood` operation) leaves the
tired flag of any state unchanged. -/
theorem c10_single_mood_witness :
    (runOps (F := ℚ) (fun x => x) 3
        [Op.setMood Mood.HAPPY, Op.update 1 0 0 Position.DEFAULT (0, 0, 0)]
        (init 240 320 50 (0, 0, 0) (255, 255, 255) 0 0 0)).happy = true ∧
    (applyOp (F := ℚ) (fun x => x) 3 (Op.setWidth 40 40)
        (init 240 320 50 (0, 0, 0) (255, 255, 255) 0 0 0)).tired
      = (init (F := ℚ) 240 320 50 (0, 0, 0) (255, 255, 255) 0 0 0).tired := by
  have h := c10_single_mood (F := ℚ) (fun x => x) 3 240 320 50 (0, 0, 0)
    (255, 255, 255) 0 0 0
    [Op.setMood Mood.HAPPY, Op.update 1 0 0 Position.DEFAULT (0, 0, 0)]
  refine ⟨?_, ?_⟩
  · have hm := h.2.1
    have hf := h.1.2.2
    rw [hf, hm]
    rfl
  · exact (h.2.2.2.2 (Op.setWidth 40 40)
      (init 240 320 50 (0, 0, 0) (255, 255, 255) 0 0 0)
      (fun m hc => Op.noConfusion hc)).2.1

/-- C4, as the claim states it, fails on `eyes.py`: during a left wink
(`_is_blinking` with `_blink_left = True`, `_blink_right = False`) the
geometry update skips the openness tween of BOTH eyes, so the
non-winked right eye does not keep converging to its target: from
`right_open = 1/2` with target `right_open_next = 1`, the tick leaves
it at exactly `1/2`. -/
theorem c4_ownership_cex :
    let s0 : RoboState ℚ :=
      { init 240 320 50 (0, 0, 0) (255, 255, 255) 0 0 0 with
        is_blinking := true, blink_left := true, blink_right := false,
        right_open := 1/2, right_open_next := 1 }
    s0.is_blinking = true ∧ s0.blink_left = true ∧ s0.blink_right = false ∧
      s0.right_open = 1/2 ∧ s0.right_open_next = 1 ∧
      (update_geometry s0).right_open = 1/2 ∧
      tween_fast s0.right_open s0.right_open_next ≠ 1/2 := by
  intro s0
  refine ⟨rfl, rfl, rfl, rfl, rfl, rfl, ?_⟩
  show tween_fast (1/2 : ℚ) 1 ≠ 1/2
  norm_num [tween_fast]

/-- C4 (amended): while a reaction animation of `eyes.py` is active it
owns its field and the interpolation step does not blend it — the x
offset while confused, the y offset while laughing, and the openness
of BOTH eyes while blinking (so during a wink the non-winked eye's
openness is frozen rather than kept converging); once the flag is
clear (the tick after the animation completes), the interpolation step
blends each field toward its target again. -/
theorem c4_animation_ownership (s : RoboState F) :
    (s.confused = true → (update_geometry s).x = s.x) ∧
    (s.laugh = true → (update_geometry s).y = s.y) ∧
    (s.is_blinking = true →
       (update_geometry s).left_open = s.left_open ∧
       (update_geometry s).right_open = s.right_open) ∧
    (s.confused = false → (update_geometry s).x = tween s.x s.x_next) ∧
    (s.laugh = false → (update_geometry s).y = tween s.y s.y_next) ∧
    (s.is_blinking = false →
       (update_geometry s).left_open = tween_fast s.left_open s.left_open_next ∧
       (update_geometry s).right_open = tween_fast s.right_open s.right_open_next) := by
  refine ⟨?_, ?_, ?_, ?_, ?_, ?_⟩ <;> intro h <;>
    simp [update_geometry, h]

/-- Witness for `c4_animation_ownership` at a state with an active
laugh animation and an active blink but no confused animation. -/
theorem c4_animation_ownership_witness :
    let s1 : RoboState ℚ :=
      { init 240 320 50 (0, 0, 0) (255, 255, 255) 0 0 0 with
        laugh := true, is_blinking := true, left_open := 1/4, y := 7 }
    (update_geometry s1).y = 7 ∧ (update_geometry s1).left_open = 1/4 ∧
      (update_geometry s1).x = tween s1.x s1.x_next := by
  intro s1
  have h := c4_animation_ownership (F := ℚ) s1
  exact ⟨h.2.1 rfl, (h.2.2.1 rfl).1, h.2.2.2.1 rfl⟩

/-- C9: the size and radius setters of `eyes.py` write only the tween
targets and the defaults: the current width, height and radius of both
eyes are untouched, and the current values move only when
`_update_geometry` tweens them toward their targets on a subsequent
`update()` call. -/
theorem c9_size_setters_animate (s : RoboState F) (l r : F) :
    ((set_width s l r).left_eye.width = s.left_eye.width ∧
       (set_width s l r).right_eye.width = s.right_eye.width ∧
       (set_width s l r).left_eye.height = s.left_eye.height ∧
       (set_width s l r).right_eye.height = s.right_eye.height ∧
       (set_width s l r).left_eye.border_radius = s.left_eye.border_radius ∧
       (set_width s l r).right_eye.border_radius = s.right_eye.border_radius ∧
       (set_width s l r).left_eye.width_next = l ∧
       (set_width s l r).left_eye.width_default = l ∧
       (set_width s l r).right_eye.width_next = r ∧
       (set_width s l r).right_eye.width_default = r) ∧
    ((set_height s l r).left_eye.width = s.left_eye.width ∧
       (set_height s l r).right_eye.width = s.right_eye.width ∧
       (set_height s l r).left_eye.height = s.left_eye.height ∧
       (set_height s l r).right_eye.height = s.right_eye.height ∧
       (set_height s l r).left_eye.border_radius = s.left_eye.border_radius ∧
       (set_height s l r).right_eye.border_radius = s.right_eye.border_radius ∧
       (set_height s l r).left_eye.height_next = l ∧
       (set_height s l r).left_eye.height_default = l ∧
       (set_height s l r).right_eye.height_next = r ∧
       (set_height s l r).right_eye.height_default = r) ∧
    ((set_border_radius s l r).left_eye.width = s.left_eye.width ∧
       (set_border_radius s l r).right_eye.width = s.right_eye.width ∧
       (set_border_radius s l r).left_eye.height = s.left_eye.height ∧
       (set_border_radius s l r).right_eye.height = s.right_eye.height ∧
       (set_border_radius s l r).left_eye.border_radius = s.left_eye.border_radius ∧
       (set_border_radius s l r).right_eye.border_radius = s.right_eye.border_radius ∧
       (set_border_radius s l r).left_eye.border_radius_next = l ∧
       (set_border_radius s l r).left_eye.border_radius_default = l ∧
       (set_border_radius s l r).right_eye.border_radius_next = r ∧
       (set_border_radius s l r).right_eye.border_radius_default = r) ∧
    ((update_geometry s).left_eye.width
        = tween s.left_eye.width s.left_eye.width_next ∧
       (update_geometry s).right_eye.width
        = tween s.right_eye.width s.right_eye.width_next ∧
       (update_geometry s).left_eye.border_radius
        = tween s.left_eye.border_radius s.left_eye.border_radius_next ∧
       (update_geometry s).right_eye.border_radius
        = tween s.right_eye.border_radius s.right_eye.border_radius_next ∧
       (s.curious = false →
         (update_geometry s).left_eye.height
            = tween s.left_eye.height s.left_eye.height_next ∧
         (update_geometry s).right_eye.height
            = tween s.right_eye.height s.right_eye.height_next)) := by
  refine ⟨⟨rfl, rfl, rfl, rfl, rfl, rfl, rfl, rfl, rfl, rfl⟩,
    ⟨rfl, rfl, rfl, rfl, rfl, rfl, rfl, rfl, rfl, rfl⟩,
    ⟨rfl, rfl, rfl, rfl, rfl, rfl, rfl, rfl, rfl, rfl⟩,
    rfl, rfl, rfl, rfl, ?_⟩
  intro h
  constructor <;> simp [update_geometry, h]

/-- Witness for `c9_size_setters_animate`: after `set_width(40)` on a
fresh engine the current width is still 36 while the target is 40, and
the following geometry tween moves the current width to
`tween 36 40 = 38`. -/
theorem c9_size_setters_animate_witness :
    (set_width (init (F := ℚ) 240 320 50 (0, 0, 0) (255, 255, 255) 0 0 0) 40 40).left_eye.width
        = 36 ∧
      (update_geometry (set_width (init (F := ℚ) 240 320 50 (0, 0, 0) (255, 255, 255) 0 0 0)
          40 40)).left_eye.height
        = tween 36 36 := by
  have h := c9_size_setters_animate (F := ℚ)
    (init 240 320 50 (0, 0, 0) (255, 255, 255) 0 0 0) 40 40
  have h2 := c9_size_setters_animate (F := ℚ)
    (set_width (init 240 320 50 (0, 0, 0) (255, 255, 255) 0 0 0) 40 40) 40 40
  exact ⟨h.1.1, (h2.2.2.2.2.2.2.2 rfl).1⟩

/-- The offset table of `RoboEyes.set_position` from `roboeyes_2.py`
(lines 266-278): the `offsets` dictionary with factor `0.7 = 7/10`,
with the `.get(position, (0, 0))` fallback never needed since the
dictionary is total over the enum. -/
def r2_set_position_offsets (mx my : F) (p : Position) : F × F :=
  match p with
  | Position.DEFAULT => (0, 0)
  | Position.N => (0, -my * (7/10))
  | Position.NE => (mx * (7/10), -my * (7/10))
  | Position.E => (mx * (7/10), 0)
  | Position.SE => (mx * (7/10), my * (7/10))
  | Position.S => (0, my * (7/10))
  | Position.SW => (-mx * (7/10), my * (7/10))
  | Position.W => (-mx * (7/10), 0)
  | Position.NW => (-mx * (7/10), -my * (7/10))

/-- C5: whenever the travel budget `(maxX, maxY)` is positive, every
non-`DEFAULT` position yields a target offset of absolute value at
most `0.8·maxX` (resp. `0.8·maxY`) per axis that is nonzero on at
least one axis, with the signs of the compass table, and `DEFAULT`
always yields `(0, 0)` — both for the `eyes.py` mapping (factor `0.8`)
and the `roboeyes_2.py` mapping (factor `0.7`). -/
theorem c5_bounded_gaze (mx my : F) (hx : 0 < mx) (hy : 0 < my) :
    (∀ mx' my' : F, set_position_offsets mx' my' Position.DEFAULT = (0, 0) ∧
       r2_set_position_offsets mx' my' Position.DEFAULT = (0, 0)) ∧
    (∀ p : Position, p ≠ Position.DEFAULT →
       |(set_position_offsets mx my p).1| ≤ (8/10) * mx ∧
       |(set_position_offsets mx my p).2| ≤ (8/10) * my ∧
       ((set_position_offsets mx my p).1 ≠ 0 ∨ (set_position_offsets mx my p).2 ≠ 0) ∧
       |(r2_set_position_offsets mx my p).1| ≤ (8/10) * mx ∧
       |(r2_set_position_offsets mx my p).2| ≤ (8/10) * my ∧
       ((r2_set_position_offsets mx my p).1 ≠ 0 ∨
         (r2_set_position_offsets mx my p).2 ≠ 0)) ∧
    ((set_position_offsets mx my Position.N).1 = 0 ∧
       (set_position_offsets mx my Position.N).2 < 0) ∧
    (0 < (set_position_offsets mx my Position.NE).1 ∧
       (set_position_offsets mx my Position.NE).2 < 0) ∧
    (0 < (set_position_offsets mx my Position.E).1 ∧
       (set_position_offsets mx my Position.E).2 = 0) ∧
    (0 < (set_position_offsets mx my Position.SE).1 ∧
       0 < (set_position_offsets mx my Position.SE).2) ∧
    ((set_position_offsets mx my Position.S).1 = 0 ∧
       0 < (set_position_offsets mx my Position.S).2) ∧
    ((set_position_offsets mx my Position.SW).1 < 0 ∧
       0 < (set_position_offsets mx my Position.SW).2) ∧
    ((set_position_offsets mx my Position.W).1 < 0 ∧
       (set_position_offsets mx my Position.W).2 = 0) ∧
    ((set_position_offsets mx my Position.NW).1 < 0 ∧
       (set_position_offsets mx my Position.NW).2 < 0) := by
  have h8x : (0 : F) < mx * (8/10) := by positivity
  have h8y : (0 : F) < my * (8/10) := by positivity
  have h7x : (0 : F) < mx * (7/10) := by positivity
  have h7y : (0 : F) < my * (7/10) := by positivity
  have hnx : (-mx) * (8/10 : F) < 0 := by linarith
  have hny : (-my) * (8/10 : F) < 0 := by linarith
  have hax : |mx * (8/10 : F)| ≤ (8/10) * mx := by
    rw [abs_of_pos h8x]; linarith
  have hay : |my * (8/10 : F)| ≤ (8/10) * my := by
    rw [abs_of_pos h8y]; linarith
  have haxn : |(-mx) * (8/10 : F)| ≤ (8/10) * mx := by
    rw [neg_mul, abs_neg, abs_of_pos h8x]; linarith
  have hayn : |(-my) * (8/10 : F)| ≤ (8/10) * my := by
    rw [neg_mul, abs_neg, abs_of_pos h8y]; linarith
  have hax7 : |mx * (7/10 : F)| ≤ (8/10) * mx := by
    rw [abs_of_pos h7x]; linarith
  have hay7 : |my * (7/10 : F)| ≤ (8/10) * my := by
    rw [abs_of_pos h7y]; linarith
  have haxn7 : |(-mx) * (7/10 : F)| ≤ (8/10) * mx := by
    rw [neg_mul, abs_neg, abs_of_pos h7x]; linarith
  have hayn7 : |(-my) * (7/10 : F)| ≤ (8/10) * my := by
    rw [neg_mul, abs_neg, abs_of_pos h7y]; linarith
  have hz8x : |(0 : F)| ≤ (8/10) * mx := by rw [abs_zero]; positivity
  have hz8y : |(0 : F)| ≤ (8/10) * my := by rw [abs_zero]; positivity
  have hnx7 : (-mx) * (7/10 : F) < 0 := by linarith
  have hny7 : (-my) * (7/10 : F) < 0 := by linarith
  refine ⟨fun mx' my' => ⟨rfl, rfl⟩, ?_, ?_, ?_, ?_, ?_, ?_, ?_, ?_, ?_⟩
  · intro p hp
    cases p with
    | DEFAULT => exact absurd rfl hp
    | N =>
      simp only [set_position_offsets, r2_set_position_offsets]
      exact ⟨hz8x, hayn, Or.inr (ne_of_lt hny), hz8x, hayn7, Or.inr (ne_of_lt hny7)⟩
    | NE =>
      simp only [set_position_offsets, r2_set_position_offsets]
      exact ⟨hax, hayn, Or.inl (ne_of_gt h8x), hax7, hayn7, Or.inl (ne_of_gt h7x)⟩
    | E =>
      simp only [set_position_offsets, r2_set_position_offsets]
      exact ⟨hax, hz8y, Or.inl (ne_of_gt h8x), hax7, hz8y, Or.inl (ne_of_gt h7x)⟩
    | SE =>
      simp only [set_position_offsets, r2_set_position_offsets]
      exact ⟨hax, hay, Or.inl (ne_of_gt h8x), hax7, hay7, Or.inl (ne_of_gt h7x)⟩
    | S =>
      simp only [set_position_offsets, r2_set_position_offsets]
      exact ⟨hz8x, hay, Or.inr (ne_of_gt h8y), hz8x, hay7, Or.inr (ne_of_gt h7y)⟩
    | SW =>
      simp only [set_position_offsets, r2_set_position_offsets]
      exact ⟨haxn, hay, Or.inl (ne_of_lt hnx), haxn7, hay7, Or.inl (ne_of_lt hnx7)⟩
    | W =>
      simp only [set_position_offsets, r2_set_position_offsets]
      exact ⟨haxn, hz8y, Or.inl (ne_of_lt hnx), haxn7, hz8y, Or.inl (ne_of_lt hnx7)⟩
    | NW =>
      simp only [set_position_offsets, r2_set_position_offsets]
      exact ⟨haxn, hayn, Or.inl (ne_of_lt hnx), haxn7, hayn7, Or.inl (ne_of_lt hnx7)⟩
  · exact ⟨rfl, hny⟩
  · exact ⟨h8x, hny⟩
  · exact ⟨h8x, rfl⟩
  · exact ⟨h8x, h8y⟩
  · exact ⟨rfl, h8y⟩
  · exact ⟨hnx, h8y⟩
  · exact ⟨hnx, rfl⟩
  · exact ⟨hnx, hny⟩

/-- Witness for `c5_bounded_gaze` at the constraints of a freshly
constructed 240×320 engine (`maxX = 74`, `maxY = 137`, from the
default 36×36 eyes and spacing 10). -/
theorem c5_bounded_gaze_witness :
    (init (F := ℚ) 240 320 50 (0, 0, 0) (255, 255, 255) 0 0 0).max_x = 74 ∧
      (init (F := ℚ) 240 320 50 (0, 0, 0) (255, 255, 255) 0 0 0).max_y = 137 ∧
      (set_position_offsets (74 : ℚ) 137 Position.N).2 < 0 ∧
      |(set_position_offsets (74 : ℚ) 137 Position.NE).1| ≤ (8/10) * 74 := by
  have h := c5_bounded_gaze (74 : ℚ) 137 (by norm_num) (by norm_num)
  refine ⟨?_, ?_, h.2.2.1.2, (h.2.1 Position.NE (by intro hc; cases hc)).1⟩
  · show ((240 : ℚ) - (36 + 36 + 10)) / 2 - 5 = 74
    norm_num
  · show ((320 : ℚ) - max 36 36) / 2 - 5 = 137
    norm_num

/-- C8: `look` resolves direction names case-insensitively — the
resolution factors through `lower().strip()` of the name, and the
sample aliases "up", "North" and "NE" resolve to their positions;
every string whose lowered/stripped form matches no alias resolves to
`DEFAULT`; and for every string whatsoever, `look` performs exactly
`set_position` of the resolved position (it is total: it never raises
and always assigns both gaze targets). -/
theorem c8_look_aliases (s : RoboState F) (d : List Char) :
    (look_resolve "up".toList = Position.N ∧
       look_resolve "North".toList = Position.N ∧
       look_resolve "NE".toList = Position.NE) ∧
    (∀ a b : List Char, stripChars (pyLower a) = stripChars (pyLower b) →
       look_resolve a = look_resolve b) ∧
    (∀ e : List Char, look_mapping.lookup (stripChars (pyLower e)) = none →
       look_resolve e = Position.DEFAULT) ∧
    look s d = set_position s (look_resolve d) ∧
    (look s d).x_next = (set_position_offsets s.max_x s.max_y (look_resolve d)).1 ∧
    (look s d).y_next = (set_position_offsets s.max_x s.max_y (look_resolve d)).2 := by
  refine ⟨⟨by decide, by decide, by decide⟩, ?_, ?_, rfl, rfl, rfl⟩
  · intro a b h
    unfold look_resolve
    rw [h]
  · intro e h
    unfold look_resolve
    rw [h]
    rfl

/-- Witness for `c8_look_aliases` over `ℚ` on a fresh engine: "NORTH"
and "north" resolve identically, and the unknown name "sideways" falls
back to `DEFAULT`. -/
theorem c8_look_aliases_witness :
    look_resolve "NORTH".toList = look_resolve "north".toList ∧
      look_resolve "sideways".toList = Position.DEFAULT ∧
      (look (init (F := ℚ) 240 320 50 (0, 0, 0) (255, 255, 255) 0 0 0) "sideways".toList)
        = set_position (init (F := ℚ) 240 320 50 (0, 0, 0) (255, 255, 255) 0 0 0)
            (look_resolve "sideways".toList) := by
  have h := c8_look_aliases (F := ℚ)
    (init 240 320 50 (0, 0, 0) (255, 255, 255) 0 0 0) "sideways".toList
  exact ⟨h.2.1 "NORTH".toList "north".toList (by decide),
    h.2.2.1 "sideways".toList (by decide), h.2.2.2.1⟩

/-- The openness-related fields of a state, bundled for the
preservation lemmas of the non-blink animation branches. -/
def openFields (s : RoboState F) : F × F × F × F × Bool :=
  (s.left_open, s.right_open, s.left_open_next, s.right_open_next, s.is_blinking)

@[simp] theorem openFields_process_confused_anim (sinF : F → F) (piF now : F)
    (s : RoboState F) :
    openFields (process_confused_anim sinF piF now s) = openFields s := by
  simp only [process_confused_anim]
  split
  · split <;> rfl
  · rfl

@[simp] theorem openFields_process_laugh_anim (sinF : F → F) (piF now : F)
    (s : RoboState F) :
    openFields (process_laugh_anim sinF piF now s) = openFields s := by
  simp only [process_laugh_anim]
  split
  · split <;> rfl
  · rfl

/-- The confused and laugh branches touch only the x/y offsets, so the
openness fields after `_process_animations` are those left by the
blink branch. -/
theorem openFields_process_animations (sinF : F → F) (piF now : F) (s : RoboState F) :
    openFields (process_animations sinF piF now s)
      = openFields (process_blink_anim sinF piF now s) := by
  unfold process_animations
  rw [openFields_process_laugh_anim, openFields_process_confused_anim]

/-- C3, as stated, fails on the code: the blink completion branch of
`eyes.py` sets the openness target of a blinked eye to the constant
`1.0`, not to the saved pre-blink target, and the curve value at `t=0`
is `1.0`, not the pre-blink openness. Concretely, from a state whose
left eye had target `0.0` (closed) and current openness `3/10`, a
blink tick at `t = 1` rewrites the target to `1.0 ≠ 0.0`, and a blink
tick at `t = 0` rewrites the openness to `1.0 ≠ 3/10`. -/
theorem c3_blink_curve_cex :
    let s0 : RoboState ℝ :=
      { init 240 320 50 (0, 0, 0) (255, 255, 255) 0 0 0 with
        is_blinking := true, blink_left := true, blink_right := true,
        left_open := 3/10, left_open_next := 0,
        blink_start_time := 0, blink_duration := 1 }
    s0.left_open_next = 0 ∧ s0.left_open = 3/10 ∧
      (process_animations Real.sin Real.pi 1 s0).left_open_next = 1 ∧
      (process_animations Real.sin Real.pi 0 s0).left_open = 1 := by
  intro s0
  have h1 := congrArg (fun q => q.2.2.1)
    (openFields_process_animations Real.sin Real.pi 1 s0)
  have h2 := congrArg (fun q => q.1)
    (openFields_process_animations Real.sin Real.pi 0 s0)
  simp only [openFields] at h1 h2
  refine ⟨rfl, rfl, ?_, ?_⟩
  · rw [h1]
    show (process_blink_anim Real.sin Real.pi 1 s0).left_open_next = 1
    unfold process_blink_anim
    rw [if_pos rfl, if_pos (by norm_num : (1:ℝ) ≤ (1 - 0) / 1)]
    rfl
  · rw [h2]
    show (process_blink_anim Real.sin Real.pi 0 s0).left_open = 1
    unfold process_blink_anim
    rw [if_pos rfl, if_neg (by norm_num : ¬((1:ℝ) ≤ (0 - 0) / 1))]
    show (1 : ℝ) - Real.sin ((0 - 0) / 1 * Real.pi) = 1
    norm_num

/-- C3 (amended): while a blink of `eyes.py` is running with
normalized progress `t = (now − start)/duration` in `[0, 1)`, the
openness of each blinked eye is set to `1 − sin(t·π)`; this curve is
symmetric (`t` and `1 − t` give equal values) and equals `1.0` — the
fully-open value, not the pre-blink value — at `t = 0` and `t = 1`;
when `t ≥ 1` the blink completes and the openness target of each
blinked eye is set to the constant `1.0` (fully open), regardless of
the pre-blink target. -/
theorem c3_blink_curve (s : RoboState ℝ) (now : ℝ) (hb : s.is_blinking = true) :
    ((now - s.blink_start_time) / s.blink_duration < 1 →
      ((s.blink_left = true →
          (process_animations Real.sin Real.pi now s).left_open
            = 1 - Real.sin ((now - s.blink_start_time) / s.blink_duration * Real.pi)) ∧
        (s.blink_right = true →
          (process_animations Real.sin Real.pi now s).right_open
            = 1 - Real.sin ((now - s.blink_start_time) / s.blink_duration * Real.pi)))) ∧
    (∀ u : ℝ, 1 - Real.sin (u * Real.pi) = 1 - Real.sin ((1 - u) * Real.pi)) ∧
    ((1 : ℝ) - Real.sin (0 * Real.pi) = 1 ∧ (1 : ℝ) - Real.sin (1 * Real.pi) = 1) ∧
    (1 ≤ (now - s.blink_start_time) / s.blink_duration →
      ((process_animations Real.sin Real.pi now s).is_blinking = false ∧
        (s.blink_left = true →
          (process_animations Real.sin Real.pi now s).left_open_next = 1) ∧
        (s.blink_right = true →
          (process_animations Real.sin Real.pi now s).right_open_next = 1))) := by
  have hopen := openFields_process_animations Real.sin Real.pi now s
  have hL := congrArg (fun q => q.1) hopen
  have hR := congrArg (fun q => q.2.1) hopen
  have hLn := congrArg (fun q => q.2.2.1) hopen
  have hRn := congrArg (fun q => q.2.2.2.1) hopen
  have hBk := congrArg (fun q => q.2.2.2.2) hopen
  simp only [openFields] at hL hR hLn hRn hBk
  refine ⟨?_, ?_, ⟨?_, ?_⟩, ?_⟩
  · intro h1
    constructor
    · intro hbl
      rw [hL]
      unfold process_blink_anim
      rw [if_pos (by rw [hb]), if_neg (not_le.mpr h1)]
      simp [hbl]
    · intro hbr
      rw [hR]
      unfold process_blink_anim
      rw [if_pos (by rw [hb]), if_neg (not_le.mpr h1)]
      simp [hbr]
  · intro u
    rw [show (1 - u) * Real.pi = Real.pi - u * Real.pi by ring, Real.sin_pi_sub]
  · rw [zero_mul, Real.sin_zero, sub_zero]
  · rw [one_mul, Real.sin_pi, sub_zero]
  · intro h1
    refine ⟨?_, ?_, ?_⟩
    · rw [hBk]
      unfold process_blink_anim
      rw [if_pos (by rw [hb]), if_pos h1]
    · intro hbl
      rw [hLn]
      unfold process_blink_anim
      rw [if_pos (by rw [hb]), if_pos h1]
      simp [hbl]
    · intro hbr
      rw [hRn]
      unfold process_blink_anim
      rw [if_pos (by rw [hb]), if_pos h1]
      simp [hbr]

/-- Witness for `c3_blink_curve` at a concrete blinking state: at
`t = 1/2` (`now = 1/2`, start `0`, duration `1`) the left eye's
openness is the curve value, and at `now = 2` (`t = 2 ≥ 1`) the blink
completes. -/
theorem c3_blink_curve_witness :
    let s1 : RoboState ℝ :=
      { init 240 320 50 (0, 0, 0) (255, 255, 255) 0 0 0 with
        is_blinking := true, blink_start_time := 0, blink_duration := 1 }
    (process_animations Real.sin Real.pi (1/2) s1).left_open
        = 1 - Real.sin ((1/2 - 0) / 1 * Real.pi) ∧
      (process_animations Real.sin Real.pi 2 s1).is_blinking = false := by
  intro s1
  have ha := c3_blink_curve s1 (1/2) rfl
  have hb2 := c3_blink_curve s1 2 rfl
  exact ⟨(ha.1 (by norm_num) ).1 rfl, (hb2.2.2.2 (by norm_num)).1⟩

/-- Primitive drawing commands handed to the PIL sink by the
renderers (`rounded_rectangle`, `polygon`, `ellipse`, `rectangle`),
with their bounding-box coordinates and, for rounded rectangles, the
requested corner radius. -/
inductive DrawCmd (α : Type) where
  | roundedRect (x0 y0 x1 y1 radius : α)
  | polygonC (pts : List (α × α))
  | ellipseC (x0 y0 x1 y1 : α)
  | rectC (x0 y0 x1 y1 : α)
deriving DecidableEq

/-- Validity of a command at the PIL boundary: the box-based
primitives raise `ValueError` when `x1 < x0` or `y1 < y0`, while
`polygon` accepts any point list. -/
def cmdValid {α : Type} [LinearOrder α] : DrawCmd α → Prop
  | DrawCmd.roundedRect x0 y0 x1 y1 _ => x0 ≤ x1 ∧ y0 ≤ y1
  | DrawCmd.ellipseC x0 y0 x1 y1 => x0 ≤ x1 ∧ y0 ≤ y1
  | DrawCmd.rectC x0 y0 x1 y1 => x0 ≤ x1 ∧ y0 ≤ y1
  | DrawCmd.polygonC _ => True

/-- The main eye shape of `RoboEyes._draw_eye` from `eyes.py` (lines
538-544): the corner radius is first clamped to
`min(radius, width // 2, height // 2)` and the rounded rectangle is
drawn only when `x2 > x` and `y2 > y`. -/
def eyes_main_rect (x y width height radius : ℤ) : List (DrawCmd ℤ) :=
  if x < x + width ∧ y < y + height then
    [DrawCmd.roundedRect x y (x + width) (y + height)
      (min radius (min (width / 2) (height / 2)))]
  else []

/-- The mood overlays of `RoboEyes._draw_eye` from `eyes.py` (lines
547-594): skipped below height 20; `tired`/`angry` draw background
triangles, `happy` a background rounded rectangle guarded by
`y2_overlay > lid_y` and using the clamped radius (recomputed here;
the source clamps once into the `radius` variable). The float
eyelid factors are modelled exactly: `int(height * 0.4)` with
`height ≥ 0` is `height * 2 / 5`, and `int(height * 0.35)` is
`height * 35 / 100`. -/
def eyes_mood_overlay (tired angry happy is_left : Bool)
    (x y width height radius : ℤ) : List (DrawCmd ℤ) :=
  if height < 20 then []
  else if tired then
    [DrawCmd.polygonC
      (if is_left then
        [(x - 2, y - 2), (x + width + 2, y - 2), (x + width + 2, y + height * 2 / 5)]
      else
        [(x - 2, y - 2), (x + width + 2, y - 2), (x - 2, y + height * 2 / 5)])]
  else if angry then
    [DrawCmd.polygonC
      (if is_left then
        [(x - 2, y - 2), (x + width + 2, y - 2), (x - 2, y + height * 35 / 100)]
      else
        [(x - 2, y - 2), (x + width + 2, y - 2), (x + width + 2, y + height * 35 / 100)])]
  else if happy then
    (if y + height - height * 2 / 5 < y + height + 2 then
      [DrawCmd.roundedRect (x - 2) (y + height - height * 2 / 5) (x + width + 2)
        (y + height + 2) (min radius (min (width / 2) (height / 2)))]
    else [])
  else []

/-- `RoboEyes._draw_eye` from `eyes.py` (lines 523-594) as the list of
commands it sends to the sink. The inputs are the already
`int()`-converted coordinates (lines 528-532); the eye is skipped
entirely when `width < 4 or height < 4`. -/
def draw_eye (tired angry happy is_left : Bool)
    (x y width height radius : ℤ) : List (DrawCmd ℤ) :=
  if width < 4 ∨ height < 4 then []
  else
    eyes_main_rect x y width height radius ++
      eyes_mood_overlay tired angry happy is_left x y width height radius

/-- The modified-shape branch of `RoboEyes._draw_rounded_rect` from
`roboeyes_2.py` (lines 506-545): an octagon polygon, four corner
ellipses and two filling rectangles, with the already-clamped radius
and effective height passed in. -/
def r2_mod_branch (x y_top width eff_height radius2 : ℚ) : List (DrawCmd ℚ) :=
  [DrawCmd.polygonC
      [(x + radius2, y_top), (x + width - radius2, y_top),
       (x + width, y_top + radius2), (x + width, y_top + eff_height - radius2),
       (x + width - radius2, y_top + eff_height), (x + radius2, y_top + eff_height),
       (x, y_top + eff_height - radius2), (x, y_top + radius2)],
    DrawCmd.ellipseC x y_top (x + radius2 * 2) (y_top + radius2 * 2),
    DrawCmd.ellipseC (x + width - radius2 * 2) y_top (x + width) (y_top + radius2 * 2),
    DrawCmd.ellipseC (x + width - radius2 * 2) (y_top + eff_height - radius2 * 2)
      (x + width) (y_top + eff_height),
    DrawCmd.ellipseC x (y_top + eff_height - radius2 * 2) (x + radius2 * 2)
      (y_top + eff_height),
    DrawCmd.rectC (x + radius2) y_top (x + width - radius2) (y_top + eff_height),
    DrawCmd.rectC x (y_top + radius2) (x + width) (y_top + eff_height - radius2)]

/-- `RoboEyes._draw_rounded_rect` from `roboeyes_2.py` (lines
483-552), operating directly on the float (here: rational) inputs:
clamp the radius, compute the effective height from the mood
modifiers, skip when it is below 2, re-clamp the radius, and draw the
modified polygon shape or the plain rounded rectangle. -/
def r2_draw_rounded_rect (x y width height radius top_mod bottom_mod : ℚ) :
    List (DrawCmd ℚ) :=
  let radius1 := min radius (min (width / 2) (height / 2))
  let top_offset := height * top_mod
  let bottom_offset := height * bottom_mod
  let eff_height := height - top_offset - bottom_offset
  if eff_height < 2 then []
  else
    let y_top := y + top_offset
    let radius2 := min radius1 (min (eff_height / 2) (width / 2))
    if top_mod > 1/100 ∨ bottom_mod > 1/100 then
      r2_mod_branch x y_top width eff_height radius2
    else
      [DrawCmd.roundedRect x y_top (x + width) (y_top + eff_height) radius2]

theorem eyes_main_rect_valid (x y width height radius : ℤ) :
    ∀ cmd ∈ eyes_main_rect x y width height radius, cmdValid cmd := by
  intro cmd hm
  unfold eyes_main_rect at hm
  split at hm
  case isTrue hc =>
    simp only [List.mem_singleton] at hm
    subst hm
    exact ⟨le_of_lt hc.1, le_of_lt hc.2⟩
  case isFalse => simp at hm

theorem eyes_mood_overlay_valid (tired angry happy is_left : Bool)
    (x y width height radius : ℤ) (hw : -4 ≤ width) :
    ∀ cmd ∈ eyes_mood_overlay tired angry happy is_left x y width height radius,
      cmdValid cmd := by
  intro cmd hm
  unfold eyes_mood_overlay at hm
  split at hm
  · simp at hm
  split at hm
  · simp only [List.mem_singleton] at hm
    subst hm
    exact trivial
  split at hm
  · simp only [List.mem_singleton] at hm
    subst hm
    exact trivial
  split at hm
  · split at hm
    case isTrue hc =>
      simp only [List.mem_singleton] at hm
      subst hm
      exact ⟨by linarith, le_of_lt hc⟩
    case isFalse => simp at hm
  · simp at hm

/-- C7, as stated, fails on the code: `roboeyes_2.py`'s
`_draw_rounded_rect` guards only the effective height, not the width.
With width `-5` (height 10, no mood modifiers) it does not skip:
it emits a rounded rectangle whose right edge `x + width = -5` lies
left of its left edge `x = 0`, which the PIL sink rejects rather than
no-ops. -/
theorem c7_renderer_cex :
    r2_draw_rounded_rect 0 0 (-5) 10 3 0 0
        = [DrawCmd.roundedRect 0 0 (-5) 10 (-(5/2))] ∧
      ¬ cmdValid (DrawCmd.roundedRect (0 : ℚ) 0 (-5) 10 (-(5/2))) := by
  constructor
  · unfold r2_draw_rounded_rect
    rw [if_neg (by norm_num), if_neg (by norm_num)]
    norm_num [min_def]
  · intro hc
    have := hc.1
    norm_num at this

/-- C7 (amended): `eyes.py`'s `_draw_eye` never emits a command the
sink would reject: it draws nothing when the integer width or height
is below 4 (hence on all zero or negative extents), every command it
emits has ordered box coordinates, and every rounded rectangle it
emits carries a radius clamped to at most `width // 2` and
`height // 2` (half the smaller dimension). `roboeyes_2.py`'s
`_draw_rounded_rect` skips when the effective height is below 2 and,
for nonnegative width, height, radius and mood modifiers, also emits
only ordered boxes — but it lacks a width guard, so a negative width
reaches the sink (see the counterexample). -/
theorem c7_renderer_safe (tired angry happy is_left : Bool)
    (x y width height radius : ℤ) (qx qy qw qh qr qtm qbm : ℚ) :
    (width < 4 ∨ height < 4 →
      draw_eye tired angry happy is_left x y width height radius = []) ∧
    (∀ cmd ∈ draw_eye tired angry happy is_left x y width height radius,
      cmdValid cmd) ∧
    (∀ x0 y0 x1 y1 rr, DrawCmd.roundedRect x0 y0 x1 y1 rr
        ∈ draw_eye tired angry happy is_left x y width height radius →
      rr ≤ width / 2 ∧ rr ≤ height / 2) ∧
    (qh - qh * qtm - qh * qbm < 2 →
      r2_draw_rounded_rect qx qy qw qh qr qtm qbm = []) ∧
    (0 ≤ qw → 0 ≤ qh → 0 ≤ qr → 0 ≤ qtm → 0 ≤ qbm →
      ∀ cmd ∈ r2_draw_rounded_rect qx qy qw qh qr qtm qbm, cmdValid cmd) := by
  refine ⟨?_, ?_, ?_, ?_, ?_⟩
  · intro h
    unfold draw_eye
    rw [if_pos h]
  · intro cmd hm
    unfold draw_eye at hm
    split at hm
    · simp at hm
    case isFalse hno =>
      push_neg at hno
      rw [List.mem_append] at hm
      rcases hm with hm | hm
      · exact eyes_main_rect_valid x y width height radius cmd hm
      · exact eyes_mood_overlay_valid tired angry happy is_left x y width height
          radius (by linarith [hno.1]) cmd hm
  · intro x0 y0 x1 y1 rr hm
    have hle : min radius (min (width / 2) (height / 2)) ≤ width / 2 ∧
        min radius (min (width / 2) (height / 2)) ≤ height / 2 :=
      ⟨le_trans (min_le_right _ _) (min_le_left _ _),
        le_trans (min_le_right _ _) (min_le_right _ _)⟩
    unfold draw_eye at hm
    split at hm
    · simp at hm
    rw [List.mem_append] at hm
    rcases hm with hm | hm
    · unfold eyes_main_rect at hm
      split at hm
      · simp only [List.mem_singleton, DrawCmd.roundedRect.injEq] at hm
        rw [hm.2.2.2.2]
        exact hle
      · simp at hm
    · unfold eyes_mood_overlay at hm
      split at hm
      · simp at hm
      split at hm
      · simp only [List.mem_singleton] at hm
        cases hm
      split at hm
      · simp only [List.mem_singleton] at hm
        cases hm
      split at hm
      · split at hm
        · simp only [List.mem_singleton, DrawCmd.roundedRect.injEq] at hm
          rw [hm.2.2.2.2]
          exact hle
        · simp at hm
      · simp at hm
  · intro h
    unfold r2_draw_rounded_rect
    rw [if_pos h]
  · intro hw hh hr htm hbm cmd hm
    simp only [r2_draw_rounded_rect] at hm
    by_cases hcut : qh - qh * qtm - qh * qbm < 2
    · rw [if_pos hcut] at hm
      simp at hm
    · rw [if_neg hcut] at hm
      push_neg at hcut
      have hrad1_nn : 0 ≤ min qr (min (qw / 2) (qh / 2)) :=
        le_min hr (le_min (by linarith) (by linarith))
      set r2v := min (min qr (min (qw / 2) (qh / 2)))
        (min ((qh - qh * qtm - qh * qbm) / 2) (qw / 2)) with hr2v
      have hrad2_nn : 0 ≤ r2v :=
        le_min hrad1_nn (le_min (by linarith) (by linarith))
      have hr2w : r2v ≤ qw / 2 :=
        le_trans (min_le_right _ _) (min_le_right _ _)
      have hr2e : r2v ≤ (qh - qh * qtm - qh * qbm) / 2 :=
        le_trans (min_le_right _ _) (min_le_left _ _)
      by_cases hmod : qtm > 1/100 ∨ qbm > 1/100
      · rw [if_pos hmod] at hm
        unfold r2_mod_branch at hm
        simp only [List.mem_cons, List.mem_singleton] at hm
        rcases hm with rfl | rfl | rfl | rfl | rfl | rfl | rfl | hm
        · exact trivial
        · exact ⟨by linarith, by linarith⟩
        · exact ⟨by linarith, by linarith⟩
        · exact ⟨by linarith, by linarith⟩
        · exact ⟨by linarith, by linarith⟩
        · exact ⟨by linarith, by linarith⟩
        · exact ⟨by linarith, by linarith⟩
        · cases hm
      · rw [if_neg hmod] at hm
        simp only [List.mem_singleton] at hm
        subst hm
        exact ⟨by linarith, by linarith⟩

/-- Witness for `c7_renderer_safe`: a 3-pixel-wide eye is skipped, the
standard 36×36 eye emits exactly its valid main rectangle, and a
1-pixel-high `roboeyes_2.py` shape is skipped. -/
theorem c7_renderer_safe_witness :
    draw_eye false false false true 0 0 3 10 2 = [] ∧
      cmdValid (DrawCmd.roundedRect (0 : ℤ) 0 36 36 8) ∧
      r2_draw_rounded_rect 0 0 10 1 2 0 0 = [] := by
  refine ⟨?_, ?_, ?_⟩
  · exact (c7_renderer_safe false false false true 0 0 3 10 2 0 0 10 1 2 0 0).1
      (Or.inl (by norm_num))
  · exact (c7_renderer_safe false false false true 0 0 36 36 8 0 0 10 1 2 0 0).2.1
      (DrawCmd.roundedRect 0 0 36 36 8) (by decide)
  · exact (c7_renderer_safe false false false true 0 0 3 10 2 0 0 10 1 2 0 0).2.2.2.1
      (by norm_num)

end RoboSpec
